import Mathlib

/-!
Shallow embedding of the coordination core of the IPA alarm system
(presence monitor `cameraSensor/main.py`, control panel `pinGui/main.py`,
dispatch worker `pinGui/threads.py`, remote alarm client
`pinGui/instasolution.py`) together with theorems settling the spec claims.

External effects (the shared Redis store, HTTP requests, bcrypt verification,
the clock) are passed in explicitly as values or oracles; each Lean function
is translated line by line from the Python function of the same name.
-/

namespace IPAAlarm

/-- Severity of a log line, mirroring the python logging levels used. -/
inductive LogLevel where
  | debug
  | info
  | warning
  | error
deriving DecidableEq, Repr

/-- A log entry: severity and message. -/
abbrev LogEntry := LogLevel × String

/-- The shared key-value store viewed as a mapping from key to optional raw
string value (redis `get` returns the value or `None`). -/
def KVStore : Type := String → Option String

/-- One store operation as issued by the code; `getOp` is recorded because the
source line issues it, but it does not change the store. -/
inductive StoreOp where
  | getOp (key : String)
  | setOp (key : String) (val : String)
  | delOp (key : String)
  | flushAllOp
deriving DecidableEq, Repr

/-- Effect of a single store operation on the store. -/
def applyOp (st : KVStore) (op : StoreOp) : KVStore :=
  match op with
  | .getOp _ => st
  | .setOp k v => fun q => if q = k then some v else st q
  | .delOp k => fun q => if q = k then none else st q
  | .flushAllOp => fun _ => none

/-- Effect of a sequence of store operations, applied in order. -/
def applyOps (st : KVStore) (ops : List StoreOp) : KVStore :=
  ops.foldl applyOp st

/-! ## Presence monitor: `src/cameraSensor/main.py` -/

/-- Result of the store interaction of one monitor-loop iteration for the
`trigger_status` key: the redis call can raise (store unreachable — there is
no try/except inside the loop), find the key absent (`r.exists` false), or
return a parsed value. -/
inductive StoreRead (α : Type) where
  | unreachable
  | absent
  | value (v : α)
deriving DecidableEq, Repr

/-- Loop-carried state of `main` (cameraSensor/main.py lines 60-77): the
`trigger_status` variable retained across iterations (initialised to 0) and
the frame-skip counter `is_last_frame`. -/
structure CamLoopState where
  trigger_status : Int
  is_last_frame : Nat
deriving DecidableEq, Repr

/-- Body of one iteration of `main` after the `trigger_status` read has been
resolved (lines 69-77): if the status is 1 and the frame-skip counter has
reached 5, a frame is read and `detect_person` (inference) is invoked and the
counter is reset, otherwise the counter is incremented; if the status is not 1
nothing happens. The `Bool` records whether inference was invoked. -/
def mainLoopBody (s : CamLoopState) : CamLoopState × Bool :=
  if s.trigger_status = 1 then
    if 5 ≤ s.is_last_frame then ({ s with is_last_frame := 0 }, true)
    else ({ s with is_last_frame := s.is_last_frame + 1 }, false)
  else (s, false)

/-- One iteration of the `while True` loop of `main` (lines 66-77).
`r.exists` / `r.get` raise when the store is unreachable and no handler
surrounds them (the try/except at module scope only covers the startup ping),
so the iteration — and with it the loop — terminates with the exception
(`Except.error`).  When the key is absent, `r.exists` is false and
`trigger_status` keeps its previous value. -/
def mainLoopStep (s : CamLoopState) (read : StoreRead Int) :
    Except Unit (CamLoopState × Bool) :=
  match read with
  | .unreachable => Except.error ()
  | .absent => Except.ok (mainLoopBody s)
  | .value v => Except.ok (mainLoopBody { s with trigger_status := v })

/-- Module-level globals of cameraSensor/main.py used by the debounce gate:
`timeout` (from settings, line 56) and `runtime`, initialised to 0 (line 57).
Durations are wall-clock seconds, modelled as rationals. -/
structure CamGlobals where
  timeout : ℚ
  runtime : ℚ
deriving DecidableEq, Repr

/-- Globals as they stand after module initialisation. -/
def initCamGlobals (timeout : ℚ) : CamGlobals :=
  { timeout := timeout, runtime := 0 }

/-- Effect of `detect_person` (lines 80-138) on the module globals. Line 103
executes `runtime = end_time - start_time`, but the function contains no
`global runtime` declaration, so the assignment binds a function-local
variable and the module-level `runtime` is unchanged; the measured inference
duration is dropped. -/
def detect_person_globals (g : CamGlobals) (_measured : ℚ) : CamGlobals :=
  g

/-- Sleep performed by `save_image` (lines 142-144): if `timeout - runtime` is
nonnegative, sleep exactly that long, reading the module-level `runtime`. -/
def save_image_sleep (g : CamGlobals) : ℚ :=
  if 0 ≤ g.timeout - g.runtime then g.timeout - g.runtime else 0

/-- Sleep the debounce gate performs for a detection whose inference took
`measured` seconds of wall-clock time: `detect_person` measures the duration
(and fails to store it globally), then `save_image` sleeps based on the
globals. -/
def gateSleep (timeout measured : ℚ) : ℚ :=
  save_image_sleep (detect_person_globals (initCamGlobals timeout) measured)

/-- Sleep prescribed by the spec (section 4.2): `remaining = quietWindow -
inferenceDuration`, slept only if positive. Written from the spec wording,
for comparison with `gateSleep`. -/
def specGateSleep (quietWindow inferenceDuration : ℚ) : ℚ :=
  if 0 < quietWindow - inferenceDuration then quietWindow - inferenceDuration
  else 0

/-- Publication step of `save_image` (lines 156-168), entered after the
debounce sleep, with the device name `dev` (from settings) and the encoded
timestamped frame `frame_json` in hand: `trigger_status` is re-read from the
store; a missing key makes `.decode` on `None` at line 156 raise
(`Except.error`), as does a value `ast.literal_eval` cannot parse. If the
parsed value is 1, the device identity and then the frame are written (two
separate `r.set` calls, in that order); otherwise nothing is written and the
deactivated outcome is logged. Returns the ordered store writes and the log
lines. The external parser `ast.literal_eval` is the oracle `literal_eval`
(on the strings this system writes it yields their integer value). -/
def save_image_publish (literal_eval : String → Option Int)
    (dev frame_json : String) (st : KVStore) :
    Except Unit (List StoreOp × List LogEntry) :=
  match st "trigger_status" with
  | none => Except.error ()
  | some raw =>
    match literal_eval raw with
    | none => Except.error ()
    | some v =>
      if v = 1 then
        Except.ok ([StoreOp.setOp "trigger_dev" dev,
                    StoreOp.setOp "frame" frame_json],
                   [(LogLevel.debug, "Runtime:"),
                    (LogLevel.info, "Frame saved to redis.")])
      else
        Except.ok ([],
                   [(LogLevel.info,
                     "Person was detected, but system was deactivated")])

/-! ## Dispatch worker: `src/pinGui/threads.py` -/

/-- Worker-visible state of `InstaThreads`: the standing command
`alarm_status` and the saved pre-sos command `alarm_status_old`
(threads.py lines 35-36, both initialised to the empty string). -/
structure WorkerState where
  alarm_status : String
  alarm_status_old : String
deriving DecidableEq, Repr

/-- One iteration of `InstaThreads.run` (threads.py lines 45-59), given the
command dequeued this tick (`none` when `alarm_queue` was empty). Returns the
successor state and the arguments of the `check_alarm_queue` invocations made
during the tick, in order: on dequeuing "sos" the prior standing command is
saved, `check_alarm_queue` is called with "sos", the saved command is
restored, and the unconditional end-of-tick `check_alarm_queue` call then
runs with the restored command. -/
def worker_tick (w : WorkerState) (dequeued : Option String) :
    WorkerState × List String :=
  match dequeued with
  | none => (w, [w.alarm_status])
  | some status =>
    if status = "sos" then
      let w1 : WorkerState :=
        { alarm_status := status, alarm_status_old := w.alarm_status }
      let w2 : WorkerState := { w1 with alarm_status := w1.alarm_status_old }
      (w2, [w1.alarm_status, w2.alarm_status])
    else
      let w1 : WorkerState := { w with alarm_status := status }
      (w1, [w1.alarm_status])

/-! ## Control panel: `src/pinGui/main.py` -/

/-- The image currently configured on the star indicator label `display`. -/
inductive StarImage where
  | s0
  | s1
  | s2
  | s3
  | s4
  | green
  | red
deriving DecidableEq, Repr

/-- The image on the system status bar (`camera_off` / `camera_on`). -/
inductive CameraIcon where
  | off
  | on
deriving DecidableEq, Repr

/-- Redis-side effects issued through `InstaThreads.flusher` /
`InstaThreads.change_status`. -/
inductive PanelRedisOp where
  | flushAll
  | setStatus (v : Int)
deriving DecidableEq, Repr

/-- Observable state of `PinGuiApp`: the fields set in `__init__`
(main.py lines 125-130, 156) together with effect logs for queue puts,
redis operations and sleeps (sleep durations in seconds, as rationals). The
progress loader label holds one of the images dots0..dots9, modelled by its
index. -/
structure AppState where
  pin_entry : String
  display : StarImage
  progress : Nat
  status_bar : CameraIcon
  cooldown : Bool
  cooldown_counter : Int
  stop_cooldown : Bool
  alarm_status : Bool
  full_screen_state : Bool
  queue_puts : List String
  redis_ops : List PanelRedisOp
  sleep_log : List ℚ
deriving DecidableEq, Repr

/-- State of a freshly constructed `PinGuiApp` (main.py `__init__`). -/
def initAppState : AppState :=
  { pin_entry := ""
    display := StarImage.s0
    progress := 0
    status_bar := CameraIcon.off
    cooldown := false
    cooldown_counter := 0
    stop_cooldown := false
    alarm_status := false
    full_screen_state := false
    queue_puts := []
    redis_ops := []
    sleep_log := [] }

/-- The ten digit keys, in the order the membership test at line 314 lists
them. -/
def digitKeys : List String :=
  ["1", "2", "3", "4", "5", "6", "7", "8", "9", "0"]

/-- Key handler `pressed` (main.py lines 297-343). For a digit key the star
indicator is updated according to the current entry length by a cascade of
(non-exclusive) `if` tests; when more than 4 digits had been entered the
indicator flashes red, the entry is reset to empty and the indicator restarts
at one star (the net indicator value is one star; the transient red flash is
a GUI effect with no retained state). The pressed digit is then appended.
The del key clears indicator and entry; the ok key only spawns the
`compare_pin` thread and mutates nothing here. -/
def pressed (s : AppState) (pressed_key : String) : AppState :=
  if pressed_key ∈ digitKeys then
    let s1 := if s.pin_entry.length = 0 then { s with display := StarImage.s1 } else s
    let s2 := if s1.pin_entry.length = 1 then { s1 with display := StarImage.s2 } else s1
    let s3 := if s2.pin_entry.length = 2 then { s2 with display := StarImage.s3 } else s2
    let s4 := if s3.pin_entry.length = 3 then { s3 with display := StarImage.s4 } else s3
    let s5 := if 3 < s4.pin_entry.length then
        { s4 with display := StarImage.s1, pin_entry := "" }
      else s4
    { s5 with pin_entry := s5.pin_entry ++ pressed_key }
  else if pressed_key = "del" then
    { s with display := StarImage.s0, pin_entry := "" }
  else
    s

/-- Fold of `pressed` over a sequence of key events from a given state. -/
def runKeys (s : AppState) (keys : List String) : AppState :=
  keys.foldl pressed s

/-- Outcome of one `bcrypt.verify` call: a Boolean result, or a raised
internal exception. -/
inductive VerifyOutcome where
  | ok (b : Bool)
  | raised
deriving DecidableEq, Repr

/-- The three configured secret hashes (main.py lines 140-142). -/
structure Secrets where
  on_off : String
  silent : String
  resize : String
deriving DecidableEq, Repr

/-- The external slow-hash verifier `bcrypt.verify` as an oracle from the
entered secret and the stored hash to an outcome. -/
def Verifier : Type := String → String → VerifyOutcome

/-- Abort schedule for one cooldown countdown: `aborts i = true` means that
during tick `i` of the countdown a concurrent confirm press matching the
arm/disarm hash runs the abort branch of `compare_pin`
(main.py lines 376-382). Nine ticks, `i = 0..8` standing for the source loop
indices `1..9` of `range(1, 10)`. -/
def CooldownAborts : Type := Fin 9 → Bool

/-- Effect of the abort branch of a concurrent `compare_pin`
(main.py lines 376-382): set `stop_cooldown`, zero `cooldown_counter`, reset
the star indicator and show the camera-off status bar. -/
def abortInject (s : AppState) : AppState :=
  { s with stop_cooldown := true
           cooldown_counter := 0
           display := StarImage.s0
           status_bar := CameraIcon.off }

/-- One tick of the countdown loop body of `do_cooldown`
(main.py lines 497-503): show loader image `dots(i+1)`, sleep one second,
and after the ninth tick reset the loader; any abort press scheduled during
this tick then takes effect on the shared state. -/
def cooldownTick (aborts : CooldownAborts) (s : AppState) (i : Fin 9) : AppState :=
  let s1 := { s with progress := i.val + 1, sleep_log := s.sleep_log ++ [(1 : ℚ)] }
  let s2 := if i.val + 1 = 9 then { s1 with progress := 0 } else s1
  if aborts i then abortInject s2 else s2

/-- `do_cooldown` (main.py lines 482-516): clear the entered pin, show green
stars, increment the cooldown counter, run nine one-second ticks updating the
loader, and only after the full loop consult `stop_cooldown`: return `true`
(arm) when it is unset and `false` (stay disarmed) when it is set, resetting
`stop_cooldown` and `cooldown_counter` in both branches. -/
def do_cooldown (aborts : CooldownAborts) (s : AppState) : Bool × AppState :=
  let s1 := { s with pin_entry := ""
                     display := StarImage.green
                     cooldown_counter := s.cooldown_counter + 1 }
  let s2 := (List.finRange 9).foldl (cooldownTick aborts) s1
  if ¬ s2.stop_cooldown then
    (true, { s2 with stop_cooldown := false, cooldown_counter := 0 })
  else
    (false, { s2 with stop_cooldown := false, cooldown_counter := 0 })

/-- `start_redis_script` (main.py lines 408-426): flush redis, enqueue the
alarm kind, leave full-screen entry to the toggle when applicable, and write
status 1 to redis. -/
def start_redis_script (s : AppState) (alarm_kind : String) : AppState :=
  let s1 := { s with redis_ops := s.redis_ops ++ [PanelRedisOp.flushAll]
                     queue_puts := s.queue_puts ++ [alarm_kind] }
  let s2 := if s1.full_screen_state then { s1 with full_screen_state := false } else s1
  { s2 with redis_ops := s2.redis_ops ++ [PanelRedisOp.setStatus 1] }

/-- `start_sos` (main.py lines 428-432): enqueue the "sos" command. -/
def start_sos (s : AppState) : AppState :=
  { s with queue_puts := s.queue_puts ++ ["sos"] }

/-- `stop_redis_script` (main.py lines 434-446): enqueue the empty command,
show the camera-off status bar, and write status 0 to redis. -/
def stop_redis_script (s : AppState) : AppState :=
  { s with queue_puts := s.queue_puts ++ [""]
           status_bar := CameraIcon.off
           redis_ops := s.redis_ops ++ [PanelRedisOp.setStatus 0] }

/-- `change_screen_state` with `toggle_full_screen` / `quit_full_screen`
(main.py lines 448-480): flip the retained full-screen flag. -/
def change_screen_state (s : AppState) : AppState :=
  if s.full_screen_state then { s with full_screen_state := false }
  else { s with full_screen_state := true }

/-- `compare_pin` (main.py lines 345-406), run on a fresh thread per ok
press. `bcrypt.verify` is the oracle `ver`; no try/except surrounds the
verify calls, so a raised outcome propagates out of the function with the
state as it stood (`Except.error`), skipping the trailing reset of indicator
and pin. `aborts` is the abort schedule for a countdown started by this
confirm. In every non-raising branch the function falls through to
lines 405-406, which reset the star indicator and clear the pin entry. -/
def compare_pin (ver : Verifier) (sec : Secrets) (aborts : CooldownAborts)
    (s : AppState) : Except AppState AppState :=
  match ver s.pin_entry sec.on_off with
  | .raised => Except.error s
  | .ok true =>
    let s2 :=
      if s.alarm_status then
        let t := stop_redis_script s
        { t with alarm_status := false }
      else
        if s.cooldown_counter ≤ 0 then
          let r := do_cooldown aborts s
          let t := { r.2 with cooldown := r.1 }
          if t.cooldown then
            let t2 := start_redis_script t "alarm"
            { t2 with status_bar := CameraIcon.on, alarm_status := true }
          else
            t
        else
          { s with stop_cooldown := true
                   cooldown_counter := 0
                   display := StarImage.s0
                   status_bar := CameraIcon.off }
    Except.ok { s2 with display := StarImage.s0, pin_entry := "" }
  | .ok false =>
    match ver s.pin_entry sec.silent with
    | .raised => Except.error s
    | .ok true =>
      let s2 := start_sos s
      let s3 := { s2 with progress := 5, sleep_log := s2.sleep_log ++ [(1 : ℚ) / 2] }
      let s4 := { s3 with progress := 9, sleep_log := s3.sleep_log ++ [(1 : ℚ)] }
      let s5 := { s4 with progress := 0 }
      Except.ok { s5 with display := StarImage.s0, pin_entry := "" }
    | .ok false =>
      match ver s.pin_entry sec.resize with
      | .raised => Except.error s
      | .ok true =>
        let s2 := change_screen_state s
        Except.ok { s2 with display := StarImage.s0, pin_entry := "" }
      | .ok false =>
        let s2 := { s with display := StarImage.red
                           sleep_log := s.sleep_log ++ [(1 : ℚ)] }
        Except.ok { s2 with display := StarImage.s0, pin_entry := "" }

/-! ## Remote alarm client: `src/pinGui/instasolution.py` -/

/-- Outcome of the login HTTP request of `get_session_id`: one of the three
caught exception classes, or a response with a status code and the optional
`sessionId` field of its JSON body. -/
inductive SessionAttempt where
  | timeoutExn
  | requestExn
  | generalExn
  | resp (status : Nat) (sessionId : Option String)
deriving DecidableEq, Repr

/-- `get_session_id` (instasolution.py lines 73-125): returns the session id,
or `none` standing for the `(-1, -1)` failure returns, together with the log
lines the call emits. Every exception is caught and logged at error level; a
non-200 status logs error, warning and debug lines; a 200 response without a
`sessionId` field logs error and debug lines; success logs nothing. -/
def get_session_id (a : SessionAttempt) : Option String × List LogEntry :=
  match a with
  | .timeoutExn =>
    (none, [(LogLevel.error,
      "There was a Timeout error while sending the request to get the sessionId")])
  | .requestExn =>
    (none, [(LogLevel.error,
      "There was an error while sending the request to get the sessionId")])
  | .generalExn =>
    (none, [(LogLevel.error,
      "There was an error while sending the request to get the sessionId")])
  | .resp status sid =>
    if status ≠ 200 then
      (none, [(LogLevel.error, "An error happened when getting / creating session Id"),
              (LogLevel.warning, "An error happened when getting / creating session id"),
              (LogLevel.debug, "payload")])
    else
      match sid with
      | none =>
        (none, [(LogLevel.error, "An error happened; No sessionId"),
                (LogLevel.debug, "payload")])
      | some v => (some v, [])

/-- The configured event ids (settings API section). -/
structure ApiSettings where
  alarm_event_id : String
  sos_event_id : String
deriving DecidableEq, Repr

/-- `get_alarm_type` (instasolution.py lines 154-171): map the alarm type to
the configured event id; a `None` type logs two warnings and returns `None`;
an unmapped non-`None` type falls off the end of the function, returning
`None` with no log. -/
def get_alarm_type (api : ApiSettings) (alarm_type : Option String) :
    Option String × List LogEntry :=
  match alarm_type with
  | some t =>
    if t = "alarm" then (some api.alarm_event_id, [])
    else if t = "sos" then (some api.sos_event_id, [])
    else (none, [])
  | none =>
    (none, [(LogLevel.warning, "Redis key trigger_msg was empty"),
            (LogLevel.warning, "Canceling the alarm triggering")])

/-- Result of decoding the frame JSON read from the store (`json.loads` plus
`base64.b64decode`): the timestamp and decoded bytes, or a raised decode
error. -/
inductive FrameDecode where
  | ok (timestamp : String) (bytes : String)
  | raises
deriving DecidableEq, Repr

/-- `save_frame` (instasolution.py lines 127-152): read `frame` from the
store; when present, decode it and write one image file named by its
timestamp — a decode error is caught and logged at warning, and in either
case the success line is logged at info; when absent, two warnings are
logged and nothing is written. Returns the written file names and the log
lines. The only store operation is the read of `frame`. -/
def save_frame (decode : String → FrameDecode) (st : KVStore) :
    List String × List LogEntry :=
  match st "frame" with
  | some f =>
    match decode f with
    | .ok ts _ =>
      ([ts ++ ".jpg"], [(LogLevel.info, "Successfully triggered the alarm")])
    | .raises =>
      ([], [(LogLevel.warning, "Save frame error"),
            (LogLevel.info, "Successfully triggered the alarm")])
  | none =>
    ([], [(LogLevel.warning, "No frame in Redis"),
          (LogLevel.warning, "Triggered the alarm without save frame")])

/-- Outcome of the episode HTTP request of `activate_alarm`: one of the three
caught exception classes, or a response with a status code. -/
inductive EpisodeAttempt where
  | timeoutExn
  | requestExn
  | generalExn
  | resp (status : Nat)
deriving DecidableEq, Repr

/-- Result of a completed `activate_alarm` call: the log lines it emitted, the
number of `save_frame` invocations it made, and the image files written. -/
structure ActivateResult where
  logs : List LogEntry
  save_frame_calls : Nat
  files : List String
deriving DecidableEq, Repr

/-- `activate_alarm` (instasolution.py lines 173-244). `get_alarm_type` is
called twice (lines 182 and 185); a `None` event id aborts — for a `None`
alarm type the debug message concatenation at line 188 raises a `TypeError`
(`Except.error`, carrying the logs emitted up to the raise). A failed session
acquisition logs two errors and aborts. On the episode request, timeout and
request exceptions log an error and return; a general exception logs an
error but does not return, so line 235 dereferences `response = None` and
raises. A status outside 200/201 skips `save_frame`: status 400 logs only the
debug line "Alarm is still active", any other such status logs a warning and
a debug line. Only on a 200/201 status is `save_frame` invoked. -/
def activate_alarm (api : ApiSettings) (session : SessionAttempt)
    (episode : EpisodeAttempt) (decode : String → FrameDecode)
    (alarm_type : Option String) (st : KVStore) :
    Except (List LogEntry) ActivateResult :=
  let logs0 : List LogEntry := [(LogLevel.debug, "Preparing alarm request")]
  let g1 := get_alarm_type api alarm_type
  let g2 := get_alarm_type api alarm_type
  match g2.1 with
  | none =>
    match alarm_type with
    | none =>
      Except.error (logs0 ++ g1.2 ++ g2.2 ++
        [(LogLevel.debug, "Trigger_msg not recognized")])
    | some t =>
      Except.ok { logs := logs0 ++ g1.2 ++ g2.2 ++
                    [(LogLevel.debug, "Trigger_msg not recognized"),
                     (LogLevel.debug, "Trigger_msg was: " ++ t),
                     (LogLevel.debug, "Canceling the alarm triggering because of event")]
                  save_frame_calls := 0
                  files := [] }
  | some _ =>
    let sres := get_session_id session
    match sres.1 with
    | none =>
      Except.ok { logs := logs0 ++ g1.2 ++ g2.2 ++ sres.2 ++
                    [(LogLevel.error, "Could not get Session Id from IS API"),
                     (LogLevel.error, "Canceling the alarm triggering")]
                  save_frame_calls := 0
                  files := [] }
    | some _ =>
      let logs1 := logs0 ++ g1.2 ++ g2.2 ++ sres.2 ++
                   [(LogLevel.debug, "Now sending alarm request")]
      match episode with
      | .timeoutExn =>
        Except.ok { logs := logs1 ++
                      [(LogLevel.error, "There was a Timeout error while sending alarm request")]
                    save_frame_calls := 0
                    files := [] }
      | .requestExn =>
        Except.ok { logs := logs1 ++
                      [(LogLevel.error, "There was an error while sending the alarm request")]
                    save_frame_calls := 0
                    files := [] }
      | .generalExn =>
        Except.error (logs1 ++
          [(LogLevel.error, "There was a general error while sending the alarm requests")])
      | .resp status =>
        if status ≠ 200 ∧ status ≠ 201 then
          if status = 400 then
            Except.ok { logs := logs1 ++ [(LogLevel.debug, "Alarm is still active")]
                        save_frame_calls := 0
                        files := [] }
          else
            Except.ok { logs := logs1 ++
                          [(LogLevel.warning, "An error happened when creating alarm request!"),
                           (LogLevel.debug, "payload")]
                        save_frame_calls := 0
                        files := [] }
        else
          let fres := save_frame decode st
          Except.ok { logs := logs1 ++ fres.2
                      save_frame_calls := 1
                      files := fres.1 }

/-- Dispatch decision of `check_alarm_queue` (instasolution.py lines 46-71):
after reading `trigger_dev` from the store, the standard alarm is activated
when the standing command is "alarm" and a trigger device is recorded, and
the sos alarm when the standing command is "sos"; otherwise `activate_alarm`
is not invoked. Returns the `alarm_type` argument of the invocation, if
any. -/
def check_alarm_queue_decision (alarm_system_status : String) (st : KVStore) :
    Option String :=
  if alarm_system_status = "alarm" ∧ st "trigger_dev" ≠ none then some "alarm"
  else if alarm_system_status = "sos" then some "sos"
  else none

/-- Store operations performed by `save_frame`: the single read of `frame`
(instasolution.py line 132). -/
def save_frame_ops : List StoreOp :=
  [StoreOp.getOp "frame"]

/-- Store operations performed by `activate_alarm`: none of its own; only the
`save_frame` call made on submission success (line 244) touches the store. -/
def activate_alarm_ops (submission_success : Bool) : List StoreOp :=
  if submission_success then save_frame_ops else []

/-- Store operations performed by one `check_alarm_queue` call
(instasolution.py lines 46-71): the read of `trigger_dev` (line 55), followed
by the operations of the `activate_alarm` call it makes, if any
(`submission_success` records whether that call reached a 200/201 episode
status and hence called `save_frame`). -/
def check_alarm_queue_ops (alarm_system_status : String) (st : KVStore)
    (submission_success : Bool) : List StoreOp :=
  StoreOp.getOp "trigger_dev" ::
    (match check_alarm_queue_decision alarm_system_status st with
     | some _ => activate_alarm_ops submission_success
     | none => [])

/-! ## Concrete instances used by counterexamples and witnesses -/

/-- A verifier whose underlying hash check raises on every call. -/
def raisingVer : Verifier := fun _ _ => VerifyOutcome.raised

/-- A verifier that reports no match on every call. -/
def noMatchVer : Verifier := fun _ _ => VerifyOutcome.ok false

/-- An arbitrary set of configured hashes. -/
def cexSecrets : Secrets := { on_off := "h1", silent := "h2", resize := "h3" }

/-- An abort schedule with no abort press. -/
def noAborts : CooldownAborts := fun _ => false

/-- The panel state with four digits entered. -/
def pinFourState : AppState := { initAppState with pin_entry := "1234" }

/-- The state `compare_pin` leaves from `pinFourState` on a no-match outcome:
red flash slept out, indicator and pin reset. -/
def noMatchResult : AppState :=
  { pinFourState with display := StarImage.s0, pin_entry := ""
                      sleep_log := [(1 : ℚ)] }

/-- A store holding only an armed status. -/
def armedKV : KVStore := fun k => if k = "trigger_status" then some "1" else none

/-- A store holding only a disarmed status. -/
def disarmedKV : KVStore := fun k => if k = "trigger_status" then some "0" else none

/-- A store holding a full detection: armed status, trigger device and
frame. -/
def detectionKV : KVStore := fun k =>
  if k = "trigger_status" then some "1"
  else if k = "trigger_dev" then some "frontdoor"
  else if k = "frame" then some "fjson"
  else none

/-- The log lines `activate_alarm` emits on the conflict (status 400)
path. -/
def conflictLogs : List LogEntry :=
  [(LogLevel.debug, "Preparing alarm request"),
   (LogLevel.debug, "Now sending alarm request"),
   (LogLevel.debug, "Alarm is still active")]

/-- Arbitrary configured event ids. -/
def cexApi : ApiSettings := { alarm_event_id := "E1", sos_event_id := "E2" }

/-- A frame decoder that always raises. -/
def cexDecode : String → FrameDecode := fun _ => FrameDecode.raises

/-- The empty store. -/
def emptyKV : KVStore := fun _ => none

/-- A concrete `ast.literal_eval` oracle for the two status strings this
system writes. -/
def statusEval : String → Option Int := fun raw =>
  if raw = "0" then some 0 else if raw = "1" then some 1 else none

/-! ## Helper lemmas -/

/-- Every key in `digitKeys` is a single character. -/
theorem digitKeys_length (k : String) (h : k ∈ digitKeys) : k.length = 1 := by
  simp only [digitKeys, List.mem_cons, List.not_mem_nil, or_false] at h
  rcases h with rfl | rfl | rfl | rfl | rfl | rfl | rfl | rfl | rfl | rfl <;> rfl

/-- The pin entry after a digit press: reset to empty first when more than 4
digits had been entered, then the pressed digit appended. -/
theorem pressed_digit_pin (s : AppState) (k : String) (hk : k ∈ digitKeys) :
    (pressed s k).pin_entry =
      (if 3 < s.pin_entry.length then "" else s.pin_entry) ++ k := by
  simp only [pressed, if_pos hk]
  split_ifs <;> rfl

/-- A key press keeps the pin entry at length at most 4. -/
theorem pressed_length_le (s : AppState) (k : String) (h : s.pin_entry.length ≤ 4) :
    (pressed s k).pin_entry.length ≤ 4 := by
  by_cases hk : k ∈ digitKeys
  · rw [pressed_digit_pin s k hk, String.length_append, digitKeys_length k hk]
    split_ifs with h3
    · simp
    · omega
  · unfold pressed
    rw [if_neg hk]
    split_ifs with hd
    · simp
    · exact h

/-! ## Claim theorems -/

/-- C1: for every sequence of key events processed by `pressed` from the
initial panel state, the pin entry has length at most 4 — in particular at
any moment a comparison is started by an ok press — and pressing a digit
while four digits are already entered resets the buffer so that it holds
exactly the one new digit. -/
theorem pin_entry_bounded_and_fifth_digit_resets
    (keys : List String) (d : String) (t : AppState)
    (hd : d ∈ digitKeys) (ht : t.pin_entry.length = 4) :
    (runKeys initAppState keys).pin_entry.length ≤ 4 ∧
    (pressed t d).pin_entry = d := by
  constructor
  · have hgen : ∀ s : AppState, s.pin_entry.length ≤ 4 →
        (runKeys s keys).pin_entry.length ≤ 4 := by
      induction keys with
      | nil => intro s hs; exact hs
      | cons k ks ih =>
        intro s hs
        exact ih (pressed s k) (pressed_length_le s k hs)
    exact hgen initAppState (by simp [initAppState])
  · rw [pressed_digit_pin t d hd, ht]
    simp

/-- Witness for C1 at the concrete key sequence 1 2 3 4 5 ok and the concrete
state with pin 1234. -/
theorem pin_entry_bounded_and_fifth_digit_resets_witness :
    (runKeys initAppState ["1", "2", "3", "4", "5", "ok"]).pin_entry.length ≤ 4 ∧
    (pressed pinFourState "5").pin_entry = "5" :=
  pin_entry_bounded_and_fifth_digit_resets ["1", "2", "3", "4", "5", "ok"] "5"
    pinFourState (by simp [digitKeys]) rfl

/-- C2 counterexample: with four digits entered and a hash verifier that
raises, `compare_pin` propagates the exception and leaves the pin entry
uncleared (still "1234"), whereas the no-match outcome at the same state
clears the pin and resets the indicator — so a raising verification is not
treated identically to a no-match, and there is an outcome in which the pin
entry is not cleared at the end of the confirm handling. -/
theorem compare_pin_raise_leaves_pin_uncleared :
    compare_pin raisingVer cexSecrets noAborts pinFourState
        = Except.error pinFourState ∧
    pinFourState.pin_entry = "1234" ∧
    compare_pin noMatchVer cexSecrets noAborts pinFourState
        = Except.ok noMatchResult ∧
    noMatchResult.pin_entry = "" := ⟨rfl, rfl, rfl, rfl⟩

/-- C2 amended: in every outcome in which `compare_pin` runs to completion
(hash verification did not raise), the pin entry is cleared and the star
indicator reset to empty at the end of the confirm handling; if hash
verification raises, the exception propagates out of the handler with the
state unchanged, so the pin is not cleared and the outcome is not that of a
no-match. -/
theorem compare_pin_clears_unless_verify_raises (ver : Verifier) (sec : Secrets)
    (aborts : CooldownAborts) (s t : AppState) :
    (compare_pin ver sec aborts s = Except.ok t →
      t.pin_entry = "" ∧ t.display = StarImage.s0) ∧
    (ver s.pin_entry sec.on_off = VerifyOutcome.raised →
      compare_pin ver sec aborts s = Except.error s) := by
  constructor
  · intro h
    unfold compare_pin at h
    split at h
    · simp at h
    · simp only [Except.ok.injEq] at h
      subst h
      exact ⟨rfl, rfl⟩
    · split at h
      · simp at h
      · simp only [Except.ok.injEq] at h
        subst h
        exact ⟨rfl, rfl⟩
      · split at h
        · simp at h
        · simp only [Except.ok.injEq] at h
          subst h
          exact ⟨rfl, rfl⟩
        · simp only [Except.ok.injEq] at h
          subst h
          exact ⟨rfl, rfl⟩
  · intro hr
    unfold compare_pin
    rw [hr]

/-- Witness for C2's amended theorem at the concrete no-match and raising
verifiers on the state with pin 1234. -/
theorem compare_pin_clears_unless_verify_raises_witness :
    (noMatchResult.pin_entry = "" ∧ noMatchResult.display = StarImage.s0) ∧
    compare_pin raisingVer cexSecrets noAborts pinFourState
        = Except.error pinFourState :=
  ⟨(compare_pin_clears_unless_verify_raises noMatchVer cexSecrets noAborts
      pinFourState noMatchResult).1 rfl,
   (compare_pin_clears_unless_verify_raises raisingVer cexSecrets noAborts
      pinFourState pinFourState).2 rfl⟩

/-- C3: evaluation of the debounce gate at a failing input. With quiet window
5 s and a measured inference duration of 7 s (at least the quiet window), the
claim prescribes no extra sleep, but the code sleeps the full 5 s: the
duration measured in `detect_person` is assigned to a function-local
`runtime` and the module-level `runtime` read by `save_image` stays 0. -/
theorem gate_sleeps_full_timeout_despite_long_inference :
    gateSleep 5 7 = 5 ∧ specGateSleep 5 7 = 0 := by
  constructor
  · norm_num [gateSleep, save_image_sleep, detect_person_globals, initCamGlobals]
  · norm_num [specGateSleep]

/-- C4: after the debounce wait, `save_image` re-reads the armed status; if
the parsed value is not 1 the pending trigger-record write is suppressed —
no store write at all, neither device identity nor frame — and the
detected-but-deactivated outcome is logged; if it is 1, the device identity
is written first and then the frame. -/
theorem publish_suppressed_when_disarmed (literal_eval : String → Option Int)
    (dev frame_json raw : String) (st : KVStore) (v : Int)
    (hread : st "trigger_status" = some raw) (hparse : literal_eval raw = some v) :
    (v ≠ 1 →
      save_image_publish literal_eval dev frame_json st =
        Except.ok ([],
          [(LogLevel.info, "Person was detected, but system was deactivated")])) ∧
    (v = 1 →
      save_image_publish literal_eval dev frame_json st =
        Except.ok ([StoreOp.setOp "trigger_dev" dev, StoreOp.setOp "frame" frame_json],
          [(LogLevel.debug, "Runtime:"), (LogLevel.info, "Frame saved to redis.")])) := by
  simp only [save_image_publish, hread, hparse]
  constructor
  · intro hv; rw [if_neg hv]
  · intro hv; rw [if_pos hv]

/-- Witness for C4 at a concrete disarmed store and a concrete armed store. -/
theorem publish_suppressed_when_disarmed_witness :
    save_image_publish statusEval "cam0" "fj" disarmedKV =
      Except.ok ([],
        [(LogLevel.info, "Person was detected, but system was deactivated")]) ∧
    save_image_publish statusEval "cam0" "fj" armedKV =
      Except.ok ([StoreOp.setOp "trigger_dev" "cam0", StoreOp.setOp "frame" "fj"],
        [(LogLevel.debug, "Runtime:"), (LogLevel.info, "Frame saved to redis.")]) :=
  ⟨(publish_suppressed_when_disarmed statusEval "cam0" "fj" "0" disarmedKV 0
      rfl rfl).1 (by decide),
   (publish_suppressed_when_disarmed statusEval "cam0" "fj" "1" armedKV 1
      rfl rfl).2 rfl⟩

/-- A countdown tick always appends exactly one one-second sleep. -/
theorem cooldownTick_sleep_log (aborts : CooldownAborts) (s : AppState) (i : Fin 9) :
    (cooldownTick aborts s i).sleep_log = s.sleep_log ++ [(1 : ℚ)] := by
  simp only [cooldownTick, abortInject]
  split_ifs <;> rfl

/-- A countdown tick sets the stop flag exactly when it was set before or an
abort press lands during the tick. -/
theorem cooldownTick_stop (aborts : CooldownAborts) (s : AppState) (i : Fin 9) :
    (cooldownTick aborts s i).stop_cooldown = (s.stop_cooldown || aborts i) := by
  simp only [cooldownTick, abortInject]
  split_ifs with h1 h2 <;> simp_all

/-- Folding the countdown tick over a list of tick indices appends one
one-second sleep per tick. -/
theorem foldl_cooldownTick_sleep_log (aborts : CooldownAborts)
    (l : List (Fin 9)) (s : AppState) :
    (l.foldl (cooldownTick aborts) s).sleep_log =
      s.sleep_log ++ List.replicate l.length (1 : ℚ) := by
  induction l generalizing s with
  | nil => simp
  | cons a l ih =>
    simp [List.foldl_cons, ih, cooldownTick_sleep_log, List.replicate_succ]

/-- Folding the countdown tick over a list of tick indices sets the stop flag
exactly when it was set before or some listed tick carries an abort. -/
theorem foldl_cooldownTick_stop (aborts : CooldownAborts)
    (l : List (Fin 9)) (s : AppState) :
    (l.foldl (cooldownTick aborts) s).stop_cooldown =
      (s.stop_cooldown || l.any (fun i => aborts i)) := by
  induction l generalizing s with
  | nil => simp
  | cons a l ih =>
    simp [List.foldl_cons, ih, cooldownTick_stop, Bool.or_assoc]

/-- C5: the cooldown countdown performs all nine configured one-second tick
sleeps no matter when (or whether) an abort re-confirm lands; only after the
full countdown is the abort flag consulted, so `do_cooldown` resolves to
`false` (stay disarmed) exactly when the flag was set before or during the
countdown, and in both outcomes the abort flag and cooldown counter are reset
to their inactive values. -/
theorem cooldown_runs_full_nine_ticks (aborts : CooldownAborts) (s : AppState) :
    (do_cooldown aborts s).2.sleep_log = s.sleep_log ++ List.replicate 9 (1 : ℚ) ∧
    ((do_cooldown aborts s).1 = false ↔
      (s.stop_cooldown = true ∨ ∃ i, aborts i = true)) ∧
    (do_cooldown aborts s).2.stop_cooldown = false ∧
    (do_cooldown aborts s).2.cooldown_counter = 0 := by
  simp only [do_cooldown]
  set s1 : AppState :=
    { s with pin_entry := ""
             display := StarImage.green
             cooldown_counter := s.cooldown_counter + 1 } with hs1
  set s2 : AppState := (List.finRange 9).foldl (cooldownTick aborts) s1 with hs2
  have hsl : s2.sleep_log = s.sleep_log ++ List.replicate 9 (1 : ℚ) := by
    rw [hs2, foldl_cooldownTick_sleep_log]
    simp [hs1]
  have hiff : s2.stop_cooldown = true ↔
      (s.stop_cooldown = true ∨ ∃ i, aborts i = true) := by
    rw [hs2, foldl_cooldownTick_stop]
    simp [hs1, List.any_eq_true, List.mem_finRange]
  cases hb : s2.stop_cooldown with
  | false =>
    rw [if_pos (show ¬ false = true by decide)]
    refine ⟨hsl, ?_, rfl, rfl⟩
    constructor
    · intro hf; simp at hf
    · intro hor
      have h2 := hiff.mpr hor
      rw [hb] at h2
      simp at h2
  | true =>
    rw [if_neg (show ¬ ¬ true = true by decide)]
    refine ⟨hsl, ?_, rfl, rfl⟩
    constructor
    · intro _; exact hiff.mp hb
    · intro _; rfl

/-- C6: when a worker tick dequeues the SOS command, the standing command in
force before the SOS is remembered, the SOS is forwarded to the remote alarm
client (`check_alarm_queue` is invoked with "sos"), and the remembered
command is restored as current — so the standing command at the start of the
next tick equals the standing command before the SOS arrived. -/
theorem sos_store_and_restore (w : WorkerState) :
    (worker_tick w (some "sos")).1.alarm_status = w.alarm_status ∧
    (worker_tick w (some "sos")).2 = ["sos", w.alarm_status] :=
  ⟨rfl, rfl⟩

/-- C7: for an alarm submission whose episode POST returns status 400, with a
successfully acquired session, `activate_alarm` returns normally having made
zero `save_frame` calls and written zero files, its log lines contain no
error-level entry, and the outcome is logged at debug severity ("Alarm is
still active"). -/
theorem conflict_episode_benign (api : ApiSettings) (sid : String)
    (decode : String → FrameDecode) (st : KVStore) (t : String)
    (ht : t = "alarm" ∨ t = "sos") :
    activate_alarm api (SessionAttempt.resp 200 (some sid)) (EpisodeAttempt.resp 400)
        decode (some t) st =
      Except.ok { logs := conflictLogs, save_frame_calls := 0, files := [] } ∧
    conflictLogs.filter (fun e => e.1 = LogLevel.error) = [] ∧
    (LogLevel.debug, "Alarm is still active") ∈ conflictLogs := by
  rcases ht with rfl | rfl <;> exact ⟨rfl, by decide, by decide⟩

/-- Witness for C7 at a concrete configuration, session id, decoder, store
and the standard alarm type. -/
theorem conflict_episode_benign_witness :
    activate_alarm cexApi (SessionAttempt.resp 200 (some "S")) (EpisodeAttempt.resp 400)
        cexDecode (some "alarm") emptyKV =
      Except.ok { logs := conflictLogs, save_frame_calls := 0, files := [] } ∧
    conflictLogs.filter (fun e => e.1 = LogLevel.error) = [] ∧
    (LogLevel.debug, "Alarm is still active") ∈ conflictLogs :=
  conflict_episode_benign cexApi "S" cexDecode emptyKV "alarm" (Or.inl rfl)

/-- C8 counterexample: at the concrete loop state armed with a due frame-skip
counter, an unreachable store makes the loop iteration raise — the monitor
loop terminates instead of continuing — and an absent armed-status key leaves
the previous armed value in force, so inference is still performed rather
than the monitor behaving as if disarmed. -/
theorem monitor_crashes_on_failing_read :
    mainLoopStep { trigger_status := 1, is_last_frame := 5 } StoreRead.unreachable
        = Except.error () ∧
    mainLoopStep { trigger_status := 1, is_last_frame := 5 } StoreRead.absent
        = Except.ok ({ trigger_status := 1, is_last_frame := 0 }, true) :=
  ⟨rfl, rfl⟩

/-- C8 amended: a read that raises (store unreachable) propagates out of the
loop body and terminates the monitor loop; an absent armed-status key leaves
the loop running with the previously read value — not as if disarmed — and
inference is performed exactly when that retained value is 1 and the
frame-skip counter has reached 5. -/
theorem monitor_failing_read_behavior (s : CamLoopState) :
    mainLoopStep s StoreRead.unreachable = Except.error () ∧
    mainLoopStep s StoreRead.absent = Except.ok (mainLoopBody s) ∧
    ((mainLoopBody s).2 = true ↔ (s.trigger_status = 1 ∧ 5 ≤ s.is_last_frame)) := by
  refine ⟨rfl, rfl, ?_⟩
  unfold mainLoopBody
  split_ifs with h1 h2 <;> simp_all

/-- C9 counterexample: at a concrete store holding a full detection, after
the dispatch worker path consumes the detection (standing command "alarm",
submission succeeded, frame persisted), the TriggerRecord keys are still in
the store — nothing cleared them — and the next tick observes the detection
again (the dispatch decision is again to activate the standard alarm). -/
theorem trigger_record_not_cleared :
    applyOps detectionKV (check_alarm_queue_ops "alarm" detectionKV true) "trigger_dev"
        = some "frontdoor" ∧
    applyOps detectionKV (check_alarm_queue_ops "alarm" detectionKV true) "frame"
        = some "fjson" ∧
    check_alarm_queue_decision "alarm"
        (applyOps detectionKV (check_alarm_queue_ops "alarm" detectionKV true))
        = some "alarm" :=
  ⟨rfl, rfl, rfl⟩

/-- C9 amended: the dispatch worker / remote alarm client path reads the
TriggerRecord but never clears it — every store operation on the path leaves
every key unchanged — so a consumed detection remains in the store and the
dispatch decision of the next worker tick is the same as before (the record
persists until the flush performed at the next arming). -/
theorem worker_path_never_clears_store (status : String) (st : KVStore)
    (success : Bool) (key : String) :
    applyOps st (check_alarm_queue_ops status st success) key = st key ∧
    check_alarm_queue_decision status
        (applyOps st (check_alarm_queue_ops status st success)) =
      check_alarm_queue_decision status st := by
  have h : ∀ k, applyOps st (check_alarm_queue_ops status st success) k = st k := by
    intro k
    unfold check_alarm_queue_ops activate_alarm_ops save_frame_ops
    cases check_alarm_queue_decision status st <;> cases success <;> rfl
  refine ⟨h key, ?_⟩
  unfold check_alarm_queue_decision
  rw [h "trigger_dev"]

/-- C10: when a worker tick dequeues the SOS command while the prior standing
command is the standard alarm and a trigger device is recorded in the store,
`check_alarm_queue` is invoked twice within that tick — once with "sos" and
once with the restored "alarm" — and both invocations decide to attempt an
alarm activation (an SOS episode and a standard-alarm episode) in the same
tick. -/
theorem sos_tick_attempts_both_alarms (w : WorkerState) (st : KVStore) (dev : String)
    (hw : w.alarm_status = "alarm") (hdev : st "trigger_dev" = some dev) :
    (worker_tick w (some "sos")).2 = ["sos", "alarm"] ∧
    (worker_tick w (some "sos")).2.map (fun c => check_alarm_queue_decision c st)
      = [some "sos", some "alarm"] := by
  have h2 : (worker_tick w (some "sos")).2 = ["sos", w.alarm_status] := rfl
  rw [h2, hw]
  refine ⟨rfl, ?_⟩
  simp [check_alarm_queue_decision, hdev]

/-- Witness for C10 at a concrete worker state and the concrete detection
store. -/
theorem sos_tick_attempts_both_alarms_witness :
    (worker_tick { alarm_status := "alarm", alarm_status_old := "" } (some "sos")).2
        = ["sos", "alarm"] ∧
    (worker_tick { alarm_status := "alarm", alarm_status_old := "" } (some "sos")).2.map
        (fun c => check_alarm_queue_decision c detectionKV)
      = [some "sos", some "alarm"] :=
  sos_tick_attempts_both_alarms { alarm_status := "alarm", alarm_status_old := "" }
    detectionKV "frontdoor" rfl rfl

end IPAAlarm
